import Mathlib

/-!
Shallow embedding of the configuration-resolution layer in
`src/config/default.go` (package `config`).

Modelling conventions:
* Go `[]byte` is `List Nat`; Go `error` values are `String` messages
  (the sentinel errors are the literal strings the Go code builds with
  `errors.New`).
* Go interface values that may be `nil` (`DataProvider`, `Codec`) are
  `Option`-valued fields; calling a method on a `nil` interface value is a
  Go panic, which the embedding models as an `Option.none` result of the
  whole operation (`some` = the function returned normally).
* The dynamic document tree (`interface{}` produced by a decoder) is the
  inductive `DynValue` below, covering the dynamic types the Go code
  inspects: `nil`, `bool`, the signed-int family, the unsigned family,
  floats (modelled as rationals), `string`, `map[string]interface{}`,
  `map[interface{}]interface{}` and slices.  Integer widths are modelled
  as unbounded (the per-width `cast.ToIntNE` variants coincide here).
* The `github.com/spf13/cast` coercion library and the YAML/JSON/TOML
  decoding libraries are external collaborators; `cast` is modelled on
  the `DynValue` scalars (decimal numeric strings; `cast.ToStringMap`'s
  JSON-in-string fallback is modelled as its error-swallowed empty map),
  and each decoder is an abstract `unmarshal` function.
-/

namespace GoConfig

/-- Go dynamic value (`interface{}`) as produced by the decoders and
inspected by the lookup/coercion code.  Floats are modelled as rationals. -/
inductive DynValue : Type where
  | vNull : DynValue
  | vBool (b : Bool) : DynValue
  | vInt (n : Int) : DynValue
  | vUint (n : Nat) : DynValue
  | vFloat (q : Rat) : DynValue
  | vStr (s : String) : DynValue
  | vMapS (m : List (String × DynValue)) : DynValue
  | vMapI (m : List (DynValue × DynValue)) : DynValue
  | vSeq (l : List DynValue) : DynValue

/-- Association-list lookup with Go map semantics (first match wins). -/
def lookupS (m : List (String × DynValue)) (k : String) : Option DynValue :=
  match m with
  | [] => none
  | kv :: rest => if kv.1 = k then some kv.2 else lookupS rest k

/-- `errors.New("app/config: config not exist")` (`ErrConfigNotExist`). -/
def errConfigNotExist : String := "app/config: config not exist"

/-- `errors.New("app/config: provider not exist")` (`ErrProviderNotExist`). -/
def errProviderNotExist : String := "app/config: provider not exist"

/-- `errors.New("app/config: codec not exist")` (`ErrCodecNotExist`). -/
def errCodecNotExist : String := "app/config: codec not exist"

/-- Splitter worker: accumulate the current segment (reversed) and cut at
each separator character. -/
def splitAux (sep : Char) : List Char → List Char → List String
  | [], acc => [String.mk acc.reverse]
  | c :: rest, acc =>
    if c = sep then String.mk acc.reverse :: splitAux sep rest []
    else splitAux sep rest (c :: acc)

/-- Model of Go `strings.Split(s, sep)` for a one-character separator
(kernel-reducible, unlike `String.splitOn`): `""` gives `[""]`, and a
separator at either end or doubled gives empty segments, as in Go. -/
def stringsSplit (s : String) (sep : Char) : List String :=
  splitAux sep s.data []

/-- Decimal digit value of a character, if it is a digit. -/
def digitVal (c : Char) : Option Nat :=
  if '0' ≤ c ∧ c ≤ '9' then some (c.toNat - 48) else none

/-- Accumulating decimal parse over a character list. -/
def parseNatAux : List Char → Nat → Option Nat
  | [], acc => some acc
  | c :: rest, acc =>
    match digitVal c with
    | some d => parseNatAux rest (acc * 10 + d)
    | none => none

/-- Parse a non-empty all-digit character list as a natural number. -/
def parseNatCL : List Char → Option Nat
  | [] => none
  | l => parseNatAux l 0

/-- Model of `strconv.ParseInt` in its plain decimal form (optional sign,
decimal digits); the base-prefix and underscore extensions of Go's
base-0 mode are outside the modelled scalar universe. -/
def goParseInt (s : String) : Option Int :=
  match s.data with
  | '-' :: rest => (parseNatCL rest).map (fun n => -(n : Int))
  | '+' :: rest => (parseNatCL rest).map (fun n => (n : Int))
  | l => (parseNatCL l).map (fun n => (n : Int))

/-- Truncation of a rational toward zero, as Go's float-to-int conversion. -/
def ratTrunc (q : Rat) : Int :=
  if 0 ≤ q.num then ((q.num.toNat / q.den : Nat) : Int)
  else -((((-q.num).toNat / q.den : Nat)) : Int)

/-- Model of `strconv.ParseBool`: the exact strings it accepts. -/
def goParseBool (s : String) : Option Bool :=
  if s = "1" ∨ s = "t" ∨ s = "T" ∨ s = "TRUE" ∨ s = "true" ∨ s = "True" then
    some true
  else if s = "0" ∨ s = "f" ∨ s = "F" ∨ s = "FALSE" ∨ s = "false" ∨ s = "False" then
    some false
  else none

/-- Model of a decimal float literal parse (`strconv.ParseFloat`) into a
rational: optional sign, digits, optional fractional part. -/
def strToRat (s : String) : Option Rat :=
  match stringsSplit s '.' with
  | [w] => (goParseInt w).map (fun n => (n : Rat))
  | [w, f] =>
    match goParseInt w, parseNatCL f.data with
    | some n, some fn =>
      let fract : Rat := (fn : Rat) / ((10 ^ f.length : Nat) : Rat)
      let neg : Bool := match s.data with | '-' :: _ => true | _ => false
      some (if neg then (n : Rat) - fract else (n : Rat) + fract)
    | _, _ => none
  | _ => none

/-- Model of `cast.ToStringE`: scalars stringify, maps/slices fail.
(Non-integral floats are stringified via the rational printer, an
approximation of Go's float formatting that no claim exercises.) -/
def castToStringE : DynValue → Option String
  | .vStr s => some s
  | .vBool b => some (if b then "true" else "false")
  | .vInt n => some (toString n)
  | .vUint n => some (toString n)
  | .vFloat q => some (toString q)
  | .vNull => some ""
  | _ => none

/-- Model of `cast.ToString` (error swallowed, empty string on failure). -/
def castToString (v : DynValue) : String :=
  (castToStringE v).getD ""

/-- Model of `cast.ToIntE` (also standing in for the per-width
`ToInt32E`/`ToInt64E`, widths being unbounded here): ints pass through,
decimal strings parse, bools map to 0/1, nil is 0, floats truncate,
everything else fails. -/
def castToIntE : DynValue → Option Int
  | .vInt n => some n
  | .vUint n => some (n : Int)
  | .vStr s => goParseInt s
  | .vBool b => some (if b then 1 else 0)
  | .vNull => some 0
  | .vFloat q => some (ratTrunc q)
  | _ => none

/-- Model of `cast.ToInt` (error swallowed, 0 on failure). -/
def castToInt (v : DynValue) : Int :=
  (castToIntE v).getD 0

/-- Model of `cast.ToUintE` (and the per-width unsigned variants):
negative values fail, otherwise as `castToIntE`. -/
def castToUintE : DynValue → Option Nat
  | .vUint n => some n
  | .vInt n => if n < 0 then none else some n.toNat
  | .vStr s =>
    match goParseInt s with
    | some n => if n < 0 then none else some n.toNat
    | none => none
  | .vBool b => some (if b then 1 else 0)
  | .vNull => some 0
  | .vFloat q => if q < 0 then none else some (ratTrunc q).toNat
  | _ => none

/-- Model of `cast.ToUint` (error swallowed, 0 on failure). -/
def castToUint (v : DynValue) : Nat :=
  (castToUintE v).getD 0

/-- Model of `cast.ToBoolE`: bools pass, numbers are tested against zero,
strings go through `strconv.ParseBool`, nil is false, else failure. -/
def castToBoolE : DynValue → Option Bool
  | .vBool b => some b
  | .vInt n => some (decide (n ≠ 0))
  | .vUint n => some (decide (n ≠ 0))
  | .vFloat q => some (decide (q ≠ 0))
  | .vStr s => goParseBool s
  | .vNull => some false
  | _ => none

/-- Model of `cast.ToBool` (error swallowed, false on failure). -/
def castToBool (v : DynValue) : Bool :=
  (castToBoolE v).getD false

/-- Model of `cast.ToFloat64E` (and `ToFloat32E`; floats are rationals
here): numbers pass through, decimal strings parse, bools map to 0/1,
nil is 0, else failure. -/
def castToFloat64E : DynValue → Option Rat
  | .vFloat q => some q
  | .vInt n => some (n : Rat)
  | .vUint n => some (n : Rat)
  | .vStr s => strToRat s
  | .vBool b => some (if b then 1 else 0)
  | .vNull => some 0
  | _ => none

/-- Model of `cast.ToFloat64` (error swallowed, 0 on failure). -/
def castToFloat64 (v : DynValue) : Rat :=
  (castToFloat64E v).getD 0

/-- String-keyed view of a `map[interface{}]interface{}`: keys are
stringified with `cast.ToString`, as in `cast.ToStringMapE`. -/
def stringifyKeys (m : List (DynValue × DynValue)) : List (String × DynValue) :=
  m.map (fun kv => (castToString kv.1, kv.2))

/-- Model of `cast.ToStringMap` applied to a dynamic value:
`map[string]interface{}` passes through, `map[interface{}]interface{}`
has its keys stringified, and anything else (including the JSON-in-string
fallback, whose error is swallowed by `ToStringMap`) yields the empty map. -/
def toStringMapV : DynValue → List (String × DynValue)
  | .vMapS m => m
  | .vMapI m => stringifyKeys m
  | _ => []

/-- `cast.ToStringMap` on a possibly-nil `interface{}` (`nil` gives the
swallowed-error empty map). -/
def toStringMap : Option DynValue → List (String × DynValue)
  | some v => toStringMapV v
  | none => []

/-- `DataProvider`: external data-source capability (`Name`, `Read`).
The `Watch` subscription only installs a callback and is not part of the
state the claims observe. -/
structure DataProvider : Type where
  name : String
  read : String → Except String (List Nat)

/-- `Codec`: format decoder capability (`Name`, `Unmarshal` into a
dynamic tree). -/
structure Codec : Type where
  name : String
  unmarshal : List Nat → Except String DynValue

/-- `FrameworkConfig`: one Configuration Instance.  `p` and `decoder` are
Go interface fields and may be `nil` (`none`); `unmarshedData` is the
`interface{}` tree (`none` = Go `nil`); `rawData` is the raw byte slice
(zero value: empty). -/
structure FrameworkConfig : Type where
  p : Option DataProvider
  unmarshedData : Option DynValue
  path : String
  decoder : Option Codec
  rawData : List Nat

namespace FrameworkConfig

/-- `parseKey`: split the key on `"."` (`strings.Split`). -/
def parseKey (_ : FrameworkConfig) (key : String) : List String :=
  stringsSplit key '.'

/-- `search`: navigate a string-keyed mapping along the remaining
segments; absent segment or non-mapping intermediate value yields
`ErrConfigNotExist` (modelled as `none`, the only error `search` returns). -/
def search (c : FrameworkConfig) (unmarshedData : List (String × DynValue)) :
    List String → Option DynValue
  | [] => none
  | k :: rest =>
    match lookupS unmarshedData k with
    | none => none
    | some next =>
      match rest with
      | [] => some next
      | r1 :: rs =>
        match next with
        | .vMapI m2 => c.search (stringifyKeys m2) (r1 :: rs)
        | .vMapS m2 => c.search m2 (r1 :: rs)
        | _ => none

/-- `locateSubkey`: run `search` from the root mapping view of the stored
tree (`cast.ToStringMap(c.unmarshedData)`). -/
def locateSubkey (c : FrameworkConfig) (subkeys : List String) : Option DynValue :=
  c.search (toStringMap c.unmarshedData) subkeys

/-- `find`: parse the key and locate it. -/
def find (c : FrameworkConfig) (key : String) : Option DynValue :=
  c.locateSubkey (c.parseKey key)

/-- `Get`: found value as-is, or the caller's default. -/
def Get (c : FrameworkConfig) (key : String) (defaultValue : DynValue) : DynValue :=
  match c.find key with
  | some v => v
  | none => defaultValue

/-- `Bytes`: the stored raw bytes. -/
def Bytes (c : FrameworkConfig) : List Nat :=
  c.rawData

/-- `findWithDefaultValue`: find, then coerce the found value according
to the dynamic type of the supplied default (the Go `switch
defaultValue.(type)`); a cast failure falls back to the default, the
default branch of the switch returns the found value uncoerced. -/
def findWithDefaultValue (c : FrameworkConfig) (key : String)
    (defaultValue : DynValue) : DynValue :=
  match c.find key with
  | none => defaultValue
  | some v =>
    match defaultValue with
    | .vBool _ =>
      match castToBoolE v with
      | some b => .vBool b
      | none => defaultValue
    | .vStr _ =>
      match castToStringE v with
      | some s => .vStr s
      | none => defaultValue
    | .vInt _ =>
      match castToIntE v with
      | some n => .vInt n
      | none => defaultValue
    | .vUint _ =>
      match castToUintE v with
      | some n => .vUint n
      | none => defaultValue
    | .vFloat _ =>
      match castToFloat64E v with
      | some q => .vFloat q
      | none => defaultValue
    | _ => v

/-- `GetInt`. -/
def GetInt (c : FrameworkConfig) (key : String) (defaultValue : Int) : Int :=
  castToInt (c.findWithDefaultValue key (.vInt defaultValue))

/-- `GetInt32` (width modelled as unbounded). -/
def GetInt32 (c : FrameworkConfig) (key : String) (defaultValue : Int) : Int :=
  castToInt (c.findWithDefaultValue key (.vInt defaultValue))

/-- `GetInt64` (width modelled as unbounded). -/
def GetInt64 (c : FrameworkConfig) (key : String) (defaultValue : Int) : Int :=
  castToInt (c.findWithDefaultValue key (.vInt defaultValue))

/-- `GetUint`. -/
def GetUint (c : FrameworkConfig) (key : String) (defaultValue : Nat) : Nat :=
  castToUint (c.findWithDefaultValue key (.vUint defaultValue))

/-- `GetUint32` (width modelled as unbounded). -/
def GetUint32 (c : FrameworkConfig) (key : String) (defaultValue : Nat) : Nat :=
  castToUint (c.findWithDefaultValue key (.vUint defaultValue))

/-- `GetUint64` (width modelled as unbounded). -/
def GetUint64 (c : FrameworkConfig) (key : String) (defaultValue : Nat) : Nat :=
  castToUint (c.findWithDefaultValue key (.vUint defaultValue))

/-- `GetFloat64` (floats modelled as rationals). -/
def GetFloat64 (c : FrameworkConfig) (key : String) (defaultValue : Rat) : Rat :=
  castToFloat64 (c.findWithDefaultValue key (.vFloat defaultValue))

/-- `GetFloat32` (floats modelled as rationals). -/
def GetFloat32 (c : FrameworkConfig) (key : String) (defaultValue : Rat) : Rat :=
  castToFloat64 (c.findWithDefaultValue key (.vFloat defaultValue))

/-- `GetBool`. -/
def GetBool (c : FrameworkConfig) (key : String) (defaultValue : Bool) : Bool :=
  castToBool (c.findWithDefaultValue key (.vBool defaultValue))

/-- `GetString`: its own lookup path — direct string assertion first,
then `cast.ToStringE`, else the default. -/
def GetString (c : FrameworkConfig) (key : String) (defaultValue : String) : String :=
  match c.locateSubkey (c.parseKey key) with
  | none => defaultValue
  | some value =>
    match value with
    | .vStr result => result
    | _ =>
      match castToStringE value with
      | some result => result
      | none => defaultValue

/-- `IsSet`: true iff `locateSubkey` succeeds. -/
def IsSet (c : FrameworkConfig) (key : String) : Bool :=
  match c.locateSubkey (c.parseKey key) with
  | some _ => true
  | none => false

/-- Instance `Load`: nil provider fails; read failure returns the wrapped
load error; otherwise `rawData` is set to the new bytes and
`unmarshedData` reset to a fresh empty map BEFORE decoding; unmarshal
failure returns the wrapped parse error (with those fields already
overwritten); success stores the decoded tree.  A `nil` decoder reached
after a successful read is a Go panic (`none`). -/
def Load (c : FrameworkConfig) : Option (Option String × FrameworkConfig) :=
  match c.p with
  | none => some (some errProviderNotExist, c)
  | some p =>
    match p.read c.path with
    | .error e =>
      some (some ("app/config: failed to load " ++ c.path ++ ": " ++ e), c)
    | .ok data =>
      match c.decoder with
      | none => none
      | some d =>
        match d.unmarshal data with
        | .error e =>
          some (some ("app/config: failed to parse " ++ c.path ++ ": " ++ e),
            { c with rawData := data, unmarshedData := some (.vMapS []) })
        | .ok tree =>
          some (none, { c with rawData := data, unmarshedData := some tree })

/-- Instance `Reload`: nil provider returns silently; read or unmarshal
failure is only printed and the state is left unchanged (the fresh tree
is decoded into a local); success replaces raw bytes and tree together.
A `nil` decoder reached after a successful read is a Go panic (`none`). -/
def Reload (c : FrameworkConfig) : Option FrameworkConfig :=
  match c.p with
  | none => some c
  | some p =>
    match p.read c.path with
    | .error _ => some c
    | .ok data =>
      match c.decoder with
      | none => none
      | some d =>
        match d.unmarshal data with
        | .error _ => some c
        | .ok tree => some { c with rawData := data, unmarshedData := some tree }

end FrameworkConfig

/-- The environment a loader runs in: the provider registry (the
`GetProvider` registry lives outside this file's source; modelled from
the spec as a name-keyed lookup that may be not-found) and the external
YAML library's decode function backing the default `&YamlCodec{}`. -/
structure Env : Type where
  providers : List (String × DataProvider)
  yamlUnmarshal : List Nat → Except String DynValue

/-- Registry lookup.  Modelled from the spec: `GetProvider` is not under
`src/`; the spec specifies `Lookup(name) -> capability or not-found`. -/
def getProvider (env : Env) (name : String) : Option DataProvider :=
  match env.providers with
  | l => l.find? (fun kv => kv.1 = name) |>.map (·.2)

/-- `newFullConfig`: default provider is the registry's `"file"` entry
(possibly nil), default decoder is the YAML codec. -/
def newFullConfig (env : Env) (path : String) : FrameworkConfig :=
  { p := getProvider env "file"
    unmarshedData := none
    path := path
    decoder := some { name := "yaml", unmarshal := env.yamlUnmarshal }
    rawData := [] }

/-- `LoadOption`: mutates the instance under construction. -/
def LoadOption : Type := FrameworkConfig → FrameworkConfig

/-- Apply the option list in order. -/
def applyOpts (opts : List LoadOption) (c : FrameworkConfig) : FrameworkConfig :=
  opts.foldl (fun acc o => o acc) c

/-- The cache key `fmt.Sprintf("%s.%s.%s", decoderName, providerName, path)`. -/
def cacheKey (decoderName providerName path : String) : String :=
  decoderName ++ "." ++ providerName ++ "." ++ path

/-- `FullConfigLoader`: the cache map from key to instance (the RW lock
is concurrency plumbing with no sequential effect). -/
structure FullConfigLoader : Type where
  configMap : List (String × FrameworkConfig)

namespace FullConfigLoader

/-- Cache lookup with Go map semantics. -/
def lookupCfg (loader : FullConfigLoader) (key : String) : Option FrameworkConfig :=
  match loader.configMap.find? (fun kv => kv.1 = key) with
  | some kv => some kv.2
  | none => none

/-- Map assignment `configMap[key] = c` (front insertion shadows any
older entry under `lookupCfg`). -/
def insertCfg (loader : FullConfigLoader) (key : String) (c : FrameworkConfig) :
    FullConfigLoader :=
  { configMap := (key, c) :: loader.configMap }

/-- In-place mutation of the instance cached under `key` (the Go map
keeps the same pointer; the pure model rewrites the entry's value). -/
def updateCfg (loader : FullConfigLoader) (key : String) (c : FrameworkConfig) :
    FullConfigLoader :=
  { configMap := loader.configMap.map (fun kv => if kv.1 = key then (key, c) else kv) }

/-- Top-level `Load`: build the instance from options, fail on nil
decoder/provider, return a cache hit, otherwise run the instance load;
on its failure propagate the error with the cache untouched; on success
insert under the key (the `Watch` subscription only installs the
eviction callback) and return the instance. -/
def Load (env : Env) (loader : FullConfigLoader) (path : String)
    (opts : List LoadOption) :
    Option (Except String FrameworkConfig × FullConfigLoader) :=
  match (applyOpts opts (newFullConfig env path)).decoder with
  | none => some (.error errCodecNotExist, loader)
  | some d =>
    match (applyOpts opts (newFullConfig env path)).p with
    | none => some (.error errProviderNotExist, loader)
    | some p =>
      match loader.lookupCfg (cacheKey d.name p.name path) with
      | some c => some (.ok c, loader)
      | none =>
        match (applyOpts opts (newFullConfig env path)).Load with
        | none => none
        | some (some e, _) => some (.error e, loader)
        | some (none, yc2) =>
          some (.ok yc2, loader.insertCfg (cacheKey d.name p.name path) yc2)

/-- Top-level `Reload`: builds the instance from options and computes the
cache key by calling `yc.decoder.Name()` and `yc.p.Name()` WITHOUT nil
checks — a nil decoder or provider is a Go panic (`none`).  On a cache
hit the cached instance's in-place `Reload` runs and `nil` is returned
regardless of its internal outcome; on a miss `ErrConfigNotExist`. -/
def Reload (env : Env) (loader : FullConfigLoader) (path : String)
    (opts : List LoadOption) : Option (Option String × FullConfigLoader) :=
  match (applyOpts opts (newFullConfig env path)).decoder,
      (applyOpts opts (newFullConfig env path)).p with
  | some d, some p =>
    match loader.lookupCfg (cacheKey d.name p.name path) with
    | some config =>
      match config.Reload with
      | none => none
      | some config2 =>
        some (none, loader.updateCfg (cacheKey d.name p.name path) config2)
    | none => some (some errConfigNotExist, loader)
  | _, _ => none

end FullConfigLoader

/-- Specification-side predicate, following the spec's wording of the
dotted-path navigation algorithm: the segment sequence resolves to `v`
from the mapping `m` when each non-final segment is present and maps to
a value that is itself a mapping (of either key representation, the
interface-keyed one viewed through key stringification) and the final
segment is present, mapping to `v`.  An empty segment list resolves to
nothing. -/
def resolvesTo (m : List (String × DynValue)) : List String → DynValue → Prop
  | [], _ => False
  | [k], v => lookupS m k = some v
  | k :: r1 :: rs, v =>
    ∃ next, lookupS m k = some next ∧
      ((∃ m2, next = .vMapS m2 ∧ resolvesTo m2 (r1 :: rs) v) ∨
       (∃ m2, next = .vMapI m2 ∧ resolvesTo (stringifyKeys m2) (r1 :: rs) v))

/-- One-step unfolding of `search` on a non-empty segment list. -/
theorem search_cons (c : FrameworkConfig) (m : List (String × DynValue))
    (k : String) (rest : List String) :
    c.search m (k :: rest) =
      (match lookupS m k with
       | none => none
       | some next =>
         match rest with
         | [] => some next
         | r1 :: rs =>
           match next with
           | .vMapI m2 => c.search (stringifyKeys m2) (r1 :: rs)
           | .vMapS m2 => c.search m2 (r1 :: rs)
           | _ => none) := by
  rw [FrameworkConfig.search.eq_2]

/-- Unfolding of `resolvesTo` on the empty segment list. -/
theorem resolvesTo_nil (m : List (String × DynValue)) (v : DynValue) :
    resolvesTo m [] v ↔ False := Iff.rfl

/-- Unfolding of `resolvesTo` on a single segment. -/
theorem resolvesTo_one (m : List (String × DynValue)) (k : String) (v : DynValue) :
    resolvesTo m [k] v ↔ lookupS m k = some v := Iff.rfl

/-- Unfolding of `resolvesTo` on two or more segments. -/
theorem resolvesTo_cons2 (m : List (String × DynValue)) (k r1 : String)
    (rs : List String) (v : DynValue) :
    resolvesTo m (k :: r1 :: rs) v ↔
      ∃ next, lookupS m k = some next ∧
        ((∃ m2, next = .vMapS m2 ∧ resolvesTo m2 (r1 :: rs) v) ∨
         (∃ m2, next = .vMapI m2 ∧ resolvesTo (stringifyKeys m2) (r1 :: rs) v)) :=
  Iff.rfl

/-- `search` succeeds with `v` exactly when the spec-side navigation
predicate resolves the segments to `v`. -/
theorem search_iff_resolvesTo (c : FrameworkConfig) (segs : List String)
    (v : DynValue) : ∀ m, c.search m segs = some v ↔ resolvesTo m segs v := by
  induction segs with
  | nil =>
    intro m
    rw [FrameworkConfig.search.eq_1, resolvesTo_nil]
    simp
  | cons k rest ih =>
    intro m
    cases h : lookupS m k with
    | none =>
      cases rest with
      | nil =>
        rw [search_cons, h, resolvesTo_one]
        simp [h]
      | cons r1 rs =>
        rw [search_cons, h, resolvesTo_cons2]
        simp [h]
    | some next =>
      cases rest with
      | nil =>
        rw [search_cons, h, resolvesTo_one, h]
      | cons r1 rs =>
        cases next with
        | vMapS m2 =>
          rw [search_cons, h, resolvesTo_cons2]
          constructor
          · intro hs
            exact ⟨.vMapS m2, h, Or.inl ⟨m2, rfl, (ih m2).mp hs⟩⟩
          · rintro ⟨next', hn, hcase⟩
            have hne : DynValue.vMapS m2 = next' := Option.some.inj (h.symm.trans hn)
            cases hne
            rcases hcase with ⟨m3, hm3, hr⟩ | ⟨m3, hm3, hr⟩
            · cases hm3
              exact (ih _).mpr hr
            · cases hm3
        | vMapI m2 =>
          rw [search_cons, h, resolvesTo_cons2]
          constructor
          · intro hs
            exact ⟨.vMapI m2, h, Or.inr ⟨m2, rfl, (ih (stringifyKeys m2)).mp hs⟩⟩
          · rintro ⟨next', hn, hcase⟩
            have hne : DynValue.vMapI m2 = next' := Option.some.inj (h.symm.trans hn)
            cases hne
            rcases hcase with ⟨m3, hm3, hr⟩ | ⟨m3, hm3, hr⟩
            · cases hm3
            · cases hm3
              exact (ih _).mpr hr
        | vNull =>
          rw [search_cons, h, resolvesTo_cons2]
          simp [h]
        | vBool b =>
          rw [search_cons, h, resolvesTo_cons2]
          simp [h]
        | vInt n =>
          rw [search_cons, h, resolvesTo_cons2]
          simp [h]
        | vUint n =>
          rw [search_cons, h, resolvesTo_cons2]
          simp [h]
        | vFloat q =>
          rw [search_cons, h, resolvesTo_cons2]
          simp [h]
        | vStr s =>
          rw [search_cons, h, resolvesTo_cons2]
          simp [h]
        | vSeq l =>
          rw [search_cons, h, resolvesTo_cons2]
          simp [h]

/-- `search` over the empty root mapping always fails. -/
theorem search_nil_map (c : FrameworkConfig) (segs : List String) :
    c.search [] segs = none := by
  cases segs with
  | nil => rfl
  | cons k rest => rfl

/-- The error-swallowing int cast is the identity on int values. -/
@[simp] theorem castToInt_vInt (n : Int) : castToInt (.vInt n) = n := rfl

/-- The error-swallowing uint cast is the identity on uint values. -/
@[simp] theorem castToUint_vUint (n : Nat) : castToUint (.vUint n) = n := rfl

/-- The error-swallowing float cast is the identity on float values. -/
@[simp] theorem castToFloat64_vFloat (q : Rat) : castToFloat64 (.vFloat q) = q := rfl

/-- The error-swallowing bool cast is the identity on bool values. -/
@[simp] theorem castToBool_vBool (b : Bool) : castToBool (.vBool b) = b := rfl

/-! Concrete fixtures used by the example clauses and witnesses. -/

/-- The spec's example document `{"server": {"port": "8080"}}`. -/
def serverDoc : DynValue :=
  .vMapS [("server", .vMapS [("port", .vStr "8080")])]

/-- An instance holding `serverDoc` (lookup operations only touch the
stored tree, so provider and decoder are irrelevant here). -/
def serverCfg : FrameworkConfig :=
  { p := none, unmarshedData := some serverDoc, path := "server.yaml"
    decoder := none, rawData := [] }

/-- An instance holding the document `{"a": {"b": {"c": 5}}}`. -/
def abcCfg : FrameworkConfig :=
  { p := none
    unmarshedData := some (.vMapS [("a", .vMapS [("b", .vMapS [("c", .vInt 5)])])])
    path := "abc.yaml", decoder := none, rawData := [] }

/-- An instance holding the document `{"a": {"b": 5}}` (non-mapping leaf). -/
def abLeafCfg : FrameworkConfig :=
  { p := none, unmarshedData := some (.vMapS [("a", .vMapS [("b", .vInt 5)])])
    path := "ab.yaml", decoder := none, rawData := [] }

/-- An instance holding the document `{"k": null}` (explicit null value). -/
def nullCfg : FrameworkConfig :=
  { p := none, unmarshedData := some (.vMapS [("k", .vNull)])
    path := "null.yaml", decoder := none, rawData := [] }

/-- C6: for every key string and dynamic tree, lookup splits the key on
`'.'` and navigates from the root mapping; `search` succeeds with `v`
exactly when every non-final segment resolves to a mapping (of either
key representation) containing the segment and the final segment is
present; it fails (the only failure being `ErrConfigNotExist`, modelled
as `none`) in every other case. -/
theorem claim_C6 (c : FrameworkConfig) (m : List (String × DynValue))
    (segs : List String) (key : String) (v : DynValue) :
    (c.search m segs = some v ↔ resolvesTo m segs v) ∧
    (c.search m segs = none ↔ ∀ w, ¬ resolvesTo m segs w) ∧
    (c.find key = some v ↔
      resolvesTo (toStringMap c.unmarshedData) (stringsSplit key '.') v) ∧
    c.parseKey key = stringsSplit key '.' := by
  refine ⟨search_iff_resolvesTo c segs v m, ⟨?_, ?_⟩, ?_, rfl⟩
  · intro h0 w hres
    have hw := (search_iff_resolvesTo c segs w m).mpr hres
    rw [h0] at hw
    cases hw
  · intro hall
    cases hs : c.search m segs with
    | none => rfl
    | some w => exact absurd ((search_iff_resolvesTo c segs w m).mp hs) (hall w)
  · exact search_iff_resolvesTo c (stringsSplit key '.') v (toStringMap c.unmarshedData)

/-- C7: each typed getter returns the found value coerced by the
corresponding (modelled) `cast` coercion when the key resolves and the
coercion succeeds, and the caller-supplied default when the key does not
resolve or the coercion fails; and the spec's `{"server": {"port":
"8080"}}` examples hold. -/
theorem claim_C7 :
    (∀ (c : FrameworkConfig) (key : String) (d : Int),
      c.GetInt key d =
        (match c.find key with
         | none => d
         | some v => (castToIntE v).getD d)) ∧
    (∀ (c : FrameworkConfig) (key : String) (d : Int),
      c.GetInt32 key d =
        (match c.find key with
         | none => d
         | some v => (castToIntE v).getD d)) ∧
    (∀ (c : FrameworkConfig) (key : String) (d : Int),
      c.GetInt64 key d =
        (match c.find key with
         | none => d
         | some v => (castToIntE v).getD d)) ∧
    (∀ (c : FrameworkConfig) (key : String) (d : Nat),
      c.GetUint key d =
        (match c.find key with
         | none => d
         | some v => (castToUintE v).getD d)) ∧
    (∀ (c : FrameworkConfig) (key : String) (d : Nat),
      c.GetUint32 key d =
        (match c.find key with
         | none => d
         | some v => (castToUintE v).getD d)) ∧
    (∀ (c : FrameworkConfig) (key : String) (d : Nat),
      c.GetUint64 key d =
        (match c.find key with
         | none => d
         | some v => (castToUintE v).getD d)) ∧
    (∀ (c : FrameworkConfig) (key : String) (d : Rat),
      c.GetFloat64 key d =
        (match c.find key with
         | none => d
         | some v => (castToFloat64E v).getD d)) ∧
    (∀ (c : FrameworkConfig) (key : String) (d : Rat),
      c.GetFloat32 key d =
        (match c.find key with
         | none => d
         | some v => (castToFloat64E v).getD d)) ∧
    (∀ (c : FrameworkConfig) (key : String) (d : Bool),
      c.GetBool key d =
        (match c.find key with
         | none => d
         | some v => (castToBoolE v).getD d)) ∧
    (∀ (c : FrameworkConfig) (key : String) (d : String),
      c.GetString key d =
        (match c.find key with
         | none => d
         | some v => (castToStringE v).getD d)) ∧
    serverCfg.GetInt "server.port" 0 = 8080 ∧
    serverCfg.GetString "server.port" "" = "8080" ∧
    serverCfg.GetInt "server.missing" 99 = 99 := by
  refine ⟨?_, ?_, ?_, ?_, ?_, ?_, ?_, ?_, ?_, ?_, by decide, by decide, by decide⟩
  · intro c key d
    cases h : c.find key with
    | none =>
      simp [FrameworkConfig.GetInt, FrameworkConfig.findWithDefaultValue, h]
    | some v =>
      cases h2 : castToIntE v with
      | none =>
        simp [FrameworkConfig.GetInt, FrameworkConfig.findWithDefaultValue, h, h2]
      | some n =>
        simp [FrameworkConfig.GetInt, FrameworkConfig.findWithDefaultValue, h, h2]
  · intro c key d
    cases h : c.find key with
    | none =>
      simp [FrameworkConfig.GetInt32, FrameworkConfig.findWithDefaultValue, h]
    | some v =>
      cases h2 : castToIntE v with
      | none =>
        simp [FrameworkConfig.GetInt32, FrameworkConfig.findWithDefaultValue, h, h2]
      | some n =>
        simp [FrameworkConfig.GetInt32, FrameworkConfig.findWithDefaultValue, h, h2]
  · intro c key d
    cases h : c.find key with
    | none =>
      simp [FrameworkConfig.GetInt64, FrameworkConfig.findWithDefaultValue, h]
    | some v =>
      cases h2 : castToIntE v with
      | none =>
        simp [FrameworkConfig.GetInt64, FrameworkConfig.findWithDefaultValue, h, h2]
      | some n =>
        simp [FrameworkConfig.GetInt64, FrameworkConfig.findWithDefaultValue, h, h2]
  · intro c key d
    cases h : c.find key with
    | none =>
      simp [FrameworkConfig.GetUint, FrameworkConfig.findWithDefaultValue, h]
    | some v =>
      cases h2 : castToUintE v with
      | none =>
        simp [FrameworkConfig.GetUint, FrameworkConfig.findWithDefaultValue, h, h2]
      | some n =>
        simp [FrameworkConfig.GetUint, FrameworkConfig.findWithDefaultValue, h, h2]
  · intro c key d
    cases h : c.find key with
    | none =>
      simp [FrameworkConfig.GetUint32, FrameworkConfig.findWithDefaultValue, h]
    | some v =>
      cases h2 : castToUintE v with
      | none =>
        simp [FrameworkConfig.GetUint32, FrameworkConfig.findWithDefaultValue, h, h2]
      | some n =>
        simp [FrameworkConfig.GetUint32, FrameworkConfig.findWithDefaultValue, h, h2]
  · intro c key d
    cases h : c.find key with
    | none =>
      simp [FrameworkConfig.GetUint64, FrameworkConfig.findWithDefaultValue, h]
    | some v =>
      cases h2 : castToUintE v with
      | none =>
        simp [FrameworkConfig.GetUint64, FrameworkConfig.findWithDefaultValue, h, h2]
      | some n =>
        simp [FrameworkConfig.GetUint64, FrameworkConfig.findWithDefaultValue, h, h2]
  · intro c key d
    cases h : c.find key with
    | none =>
      simp [FrameworkConfig.GetFloat64, FrameworkConfig.findWithDefaultValue, h]
    | some v =>
      cases h2 : castToFloat64E v with
      | none =>
        simp [FrameworkConfig.GetFloat64, FrameworkConfig.findWithDefaultValue, h, h2]
      | some q =>
        simp [FrameworkConfig.GetFloat64, FrameworkConfig.findWithDefaultValue, h, h2]
  · intro c key d
    cases h : c.find key with
    | none =>
      simp [FrameworkConfig.GetFloat32, FrameworkConfig.findWithDefaultValue, h]
    | some v =>
      cases h2 : castToFloat64E v with
      | none =>
        simp [FrameworkConfig.GetFloat32, FrameworkConfig.findWithDefaultValue, h, h2]
      | some q =>
        simp [FrameworkConfig.GetFloat32, FrameworkConfig.findWithDefaultValue, h, h2]
  · intro c key d
    cases h : c.find key with
    | none =>
      simp [FrameworkConfig.GetBool, FrameworkConfig.findWithDefaultValue, h]
    | some v =>
      cases h2 : castToBoolE v with
      | none =>
        simp [FrameworkConfig.GetBool, FrameworkConfig.findWithDefaultValue, h, h2]
      | some b =>
        simp [FrameworkConfig.GetBool, FrameworkConfig.findWithDefaultValue, h, h2]
  · intro c key d
    unfold FrameworkConfig.GetString
    cases h : c.find key with
    | none =>
      rw [show c.locateSubkey (c.parseKey key) = none from h]
    | some v =>
      rw [show c.locateSubkey (c.parseKey key) = some v from h]
      cases v <;> rfl

/-- C8: `IsSet` is true exactly when dotted-path navigation resolves the
key to a value (an explicit null counts), and `Get` returns the stored
value when set and the default otherwise; with the spec's nested-key
examples. -/
theorem claim_C8 (c : FrameworkConfig) (key : String) (dv : DynValue) :
    (c.IsSet key = (c.find key).isSome) ∧
    (c.IsSet key = true ↔
      ∃ v, resolvesTo (toStringMap c.unmarshedData) (stringsSplit key '.') v) ∧
    (c.Get key dv = (c.find key).getD dv) ∧
    abcCfg.IsSet "a.b.c" = true ∧
    abcCfg.Get "a.b.c" dv = .vInt 5 ∧
    abcCfg.IsSet "a.b.x" = false ∧
    abcCfg.Get "a.b.x" dv = dv ∧
    abLeafCfg.IsSet "a.b.c" = false ∧
    nullCfg.IsSet "k" = true := by
  refine ⟨?_, ⟨?_, ?_⟩, ?_, by decide, ?_, by decide, ?_, by decide, by decide⟩
  · unfold FrameworkConfig.IsSet
    cases h : c.find key with
    | none =>
      rw [show c.locateSubkey (c.parseKey key) = none from h]
      rfl
    | some v =>
      rw [show c.locateSubkey (c.parseKey key) = some v from h]
      rfl
  · intro ht
    cases h : c.find key with
    | none =>
      unfold FrameworkConfig.IsSet at ht
      rw [show c.locateSubkey (c.parseKey key) = none from h] at ht
      cases ht
    | some v =>
      exact ⟨v, (search_iff_resolvesTo c (stringsSplit key '.') v
        (toStringMap c.unmarshedData)).mp h⟩
  · rintro ⟨v, hv⟩
    have hf : c.find key = some v :=
      (search_iff_resolvesTo c (stringsSplit key '.') v
        (toStringMap c.unmarshedData)).mpr hv
    unfold FrameworkConfig.IsSet
    rw [show c.locateSubkey (c.parseKey key) = some v from hf]
  · unfold FrameworkConfig.Get
    cases h : c.find key with
    | none => rfl
    | some v => rfl
  · unfold FrameworkConfig.Get
    rw [show abcCfg.find "a.b.c" = some (DynValue.vInt 5) from rfl]
  · unfold FrameworkConfig.Get
    rw [show abcCfg.find "a.b.x" = none from rfl]

/-- C10: on an instance whose load never ran or never succeeded in
storing a tree (`unmarshedData` nil or the empty mapping), lookup is
total: navigation fails with `ErrConfigNotExist` (modelled `none`), so
`Get` and every typed getter return the supplied default and `IsSet`
returns false. -/
theorem claim_C10 (c : FrameworkConfig) (key : String) (dv : DynValue)
    (ds : String) (di : Int) (du : Nat) (dq : Rat) (db : Bool)
    (h : c.unmarshedData = none ∨ c.unmarshedData = some (.vMapS [])) :
    c.find key = none ∧
    c.IsSet key = false ∧
    c.Get key dv = dv ∧
    c.GetString key ds = ds ∧
    c.GetInt key di = di ∧
    c.GetInt32 key di = di ∧
    c.GetInt64 key di = di ∧
    c.GetUint key du = du ∧
    c.GetUint32 key du = du ∧
    c.GetUint64 key du = du ∧
    c.GetFloat64 key dq = dq ∧
    c.GetFloat32 key dq = dq ∧
    c.GetBool key db = db := by
  have hroot : toStringMap c.unmarshedData = [] := by
    rcases h with h | h <;> rw [h] <;> rfl
  have hfind : ∀ k2 : String, c.find k2 = none := by
    intro k2
    show c.search (toStringMap c.unmarshedData) (c.parseKey k2) = none
    rw [hroot]
    exact search_nil_map c _
  refine ⟨hfind key, ?_, ?_, ?_, ?_, ?_, ?_, ?_, ?_, ?_, ?_, ?_, ?_⟩
  · unfold FrameworkConfig.IsSet
    rw [show c.locateSubkey (c.parseKey key) = none from hfind key]
  · unfold FrameworkConfig.Get
    rw [hfind key]
  · unfold FrameworkConfig.GetString
    rw [show c.locateSubkey (c.parseKey key) = none from hfind key]
  · simp [FrameworkConfig.GetInt, FrameworkConfig.findWithDefaultValue, hfind key,
      castToInt, castToIntE]
  · simp [FrameworkConfig.GetInt32, FrameworkConfig.findWithDefaultValue, hfind key,
      castToInt, castToIntE]
  · simp [FrameworkConfig.GetInt64, FrameworkConfig.findWithDefaultValue, hfind key,
      castToInt, castToIntE]
  · simp [FrameworkConfig.GetUint, FrameworkConfig.findWithDefaultValue, hfind key,
      castToUint, castToUintE]
  · simp [FrameworkConfig.GetUint32, FrameworkConfig.findWithDefaultValue, hfind key,
      castToUint, castToUintE]
  · simp [FrameworkConfig.GetUint64, FrameworkConfig.findWithDefaultValue, hfind key,
      castToUint, castToUintE]
  · simp [FrameworkConfig.GetFloat64, FrameworkConfig.findWithDefaultValue, hfind key,
      castToFloat64, castToFloat64E]
  · simp [FrameworkConfig.GetFloat32, FrameworkConfig.findWithDefaultValue, hfind key,
      castToFloat64, castToFloat64E]
  · simp [FrameworkConfig.GetBool, FrameworkConfig.findWithDefaultValue, hfind key,
      castToBool, castToBoolE]

/-- Witness for C10 at a concrete never-loaded instance. -/
theorem claim_C10_witness :
    (FrameworkConfig.mk none none "w" none []).find "a.b" = none ∧
    (FrameworkConfig.mk none none "w" none []).IsSet "a.b" = false ∧
    (FrameworkConfig.mk none none "w" none []).Get "a.b" .vNull = .vNull ∧
    (FrameworkConfig.mk none none "w" none []).GetString "a.b" "dflt" = "dflt" ∧
    (FrameworkConfig.mk none none "w" none []).GetInt "a.b" 3 = 3 ∧
    (FrameworkConfig.mk none none "w" none []).GetInt32 "a.b" 3 = 3 ∧
    (FrameworkConfig.mk none none "w" none []).GetInt64 "a.b" 3 = 3 ∧
    (FrameworkConfig.mk none none "w" none []).GetUint "a.b" 4 = 4 ∧
    (FrameworkConfig.mk none none "w" none []).GetUint32 "a.b" 4 = 4 ∧
    (FrameworkConfig.mk none none "w" none []).GetUint64 "a.b" 4 = 4 ∧
    (FrameworkConfig.mk none none "w" none []).GetFloat64 "a.b" 5 = 5 ∧
    (FrameworkConfig.mk none none "w" none []).GetFloat32 "a.b" 5 = 5 ∧
    (FrameworkConfig.mk none none "w" none []).GetBool "a.b" true = true :=
  claim_C10 (FrameworkConfig.mk none none "w" none []) "a.b" .vNull
    "dflt" 3 4 5 true (Or.inl rfl)

/-! Fixtures for the load/reload claims: a provider whose read fails, two
providers that deliver fixed bytes, a decoder that always fails and one
that always yields `{"a": 1}`. -/

/-- A provider named `"file"` whose `Read` always fails with `"io"`. -/
def provRF : DataProvider := { name := "file", read := fun _ => .error "io" }

/-- A provider named `"file"` whose `Read` always yields the bytes `[2]`. -/
def provOK2 : DataProvider := { name := "file", read := fun _ => .ok [2] }

/-- A provider named `"file"` whose `Read` always yields the bytes `[7]`. -/
def provOK7 : DataProvider := { name := "file", read := fun _ => .ok [7] }

/-- A decoder whose `Unmarshal` always fails with `"boom"`. -/
def codecBoom : Codec := { name := "yaml", unmarshal := fun _ => .error "boom" }

/-- A decoder whose `Unmarshal` always yields the tree `{"a": 1}`. -/
def codecTree : Codec :=
  { name := "yaml", unmarshal := fun _ => .ok (.vMapS [("a", .vInt 1)]) }

/-- An instance with previously stored raw bytes `[1]` and tree `{"a": 1}`,
whose provider reads fresh bytes `[2]` and whose decoder then fails. -/
def c1Before : FrameworkConfig :=
  { p := some provOK2, unmarshedData := some (.vMapS [("a", .vInt 1)])
    path := "p", decoder := some codecBoom, rawData := [1] }

/-- The state `c1Before` actually reaches after its failing `Load`. -/
def c1After : FrameworkConfig :=
  { c1Before with rawData := [2], unmarshedData := some (.vMapS []) }

/-- An empty loader cache. -/
def emptyLoader : FullConfigLoader := { configMap := [] }

/-- An environment with no registered providers at all. -/
def env2 : Env := { providers := [], yamlUnmarshal := fun _ => .error "e" }

/-- C1 counterexample: on `c1Before`, `Load` reads bytes successfully and
the decoder fails, and `Load` does return the wrapped parse error — but
the stored raw bytes change from `[1]` to `[2]` and the previously
stored key `"a"` is lost from the tree, so the previous state is NOT
preserved, refuting the claim as stated. -/
theorem claim_C1_cex :
    (c1Before.Load).map (fun r => (r.1, r.2.rawData, r.2.IsSet "a")) =
      some (some "app/config: failed to parse p: boom", [2], false) ∧
    c1Before.rawData = [1] ∧
    c1Before.IsSet "a" = true :=
  ⟨rfl, rfl, rfl⟩

/-- C1 (amended): when the provider read succeeds and the decoder's
unmarshal fails, instance `Load` returns the wrapped parse error, but
the stored raw bytes are replaced by the newly read bytes and the
dynamic tree is reset to the fresh empty mapping created before
decoding — the previous state is not preserved and the raw-bytes/tree
pair is left mutually inconsistent until the next successful load. -/
theorem claim_C1 (c : FrameworkConfig) (p : DataProvider) (d : Codec)
    (data : List Nat) (e : String)
    (hp : c.p = some p) (hread : p.read c.path = .ok data)
    (hd : c.decoder = some d) (hfail : d.unmarshal data = .error e) :
    c.Load = some (some ("app/config: failed to parse " ++ c.path ++ ": " ++ e),
      { c with rawData := data, unmarshedData := some (.vMapS []) }) := by
  simp only [FrameworkConfig.Load, hp, hread, hd, hfail]

/-- Witness for C1 (amended) at the concrete failing-parse instance. -/
theorem claim_C1_witness :
    c1Before.Load =
      some (some ("app/config: failed to parse " ++ "p" ++ ": " ++ "boom"), c1After) :=
  claim_C1 c1Before provOK2 codecBoom [2] "boom" rfl rfl rfl rfl

/-- Instance `Load` returns normally (never panics) whenever the decoder
field is non-nil. -/
theorem instLoad_isSome (c : FrameworkConfig) (hd : c.decoder.isSome = true) :
    (c.Load).isSome = true := by
  cases hp : c.p with
  | none => simp [FrameworkConfig.Load, hp]
  | some p =>
    cases hr : p.read c.path with
    | error e => simp [FrameworkConfig.Load, hp, hr]
    | ok data =>
      cases hdec : c.decoder with
      | none =>
        rw [hdec] at hd
        simp at hd
      | some dd =>
        cases hu : dd.unmarshal data with
        | error e => simp [FrameworkConfig.Load, hp, hr, hdec, hu]
        | ok tree => simp [FrameworkConfig.Load, hp, hr, hdec, hu]

/-- C2 counterexample: with no provider registered under `"file"`, the
top-level `Reload` dereferences the nil provider while computing the
cache key and panics (modelled `none`), refuting the claim that the
top-level operations never panic when options resolve to no provider. -/
theorem claim_C2_cex :
    FullConfigLoader.Reload env2 emptyLoader "x" [] = none := rfl

/-- C2 (amended): the top-level `Load` always returns (reporting missing
decoder/provider through its error value), and the instance-level `Load`
returns normally whenever its decoder is present — in particular it
returns `ErrProviderNotExist` rather than panicking on a nil provider —
but the top-level `Reload` dereferences the resolved decoder and
provider before any nil check and panics when either is absent. -/
theorem claim_C2 :
    (∀ (env : Env) (loader : FullConfigLoader) (path : String)
        (opts : List LoadOption),
      (FullConfigLoader.Load env loader path opts).isSome = true) ∧
    (∀ c : FrameworkConfig, c.decoder.isSome = true → (c.Load).isSome = true) ∧
    (∀ c : FrameworkConfig, c.p = none →
      c.Load = some (some errProviderNotExist, c)) ∧
    (∀ (env : Env) (loader : FullConfigLoader) (path : String)
        (opts : List LoadOption),
      ((applyOpts opts (newFullConfig env path)).decoder = none ∨
       (applyOpts opts (newFullConfig env path)).p = none) →
      FullConfigLoader.Reload env loader path opts = none) := by
  refine ⟨?_, instLoad_isSome, ?_, ?_⟩
  · intro env loader path opts
    cases hd : (applyOpts opts (newFullConfig env path)).decoder with
    | none => simp [FullConfigLoader.Load, hd]
    | some d =>
      cases hp : (applyOpts opts (newFullConfig env path)).p with
      | none => simp [FullConfigLoader.Load, hd, hp]
      | some p =>
        cases hl : loader.lookupCfg (cacheKey d.name p.name path) with
        | some c => simp [FullConfigLoader.Load, hd, hp, hl]
        | none =>
          cases hL : (applyOpts opts (newFullConfig env path)).Load with
          | none =>
            have hsome := instLoad_isSome (applyOpts opts (newFullConfig env path))
              (by rw [hd]; rfl)
            rw [hL] at hsome
            cases hsome
          | some r =>
            obtain ⟨oe, yc2⟩ := r
            cases oe with
            | none => simp [FullConfigLoader.Load, hd, hp, hl, hL]
            | some e => simp [FullConfigLoader.Load, hd, hp, hl, hL]
  · intro c hp
    unfold FrameworkConfig.Load
    rw [hp]
  · intro env loader path opts h
    unfold FullConfigLoader.Reload
    rcases h with h | h
    · cases hp : (applyOpts opts (newFullConfig env path)).p with
      | none => rw [h]
      | some p => rw [h]
    · cases hd : (applyOpts opts (newFullConfig env path)).decoder with
      | none => rw [h]
      | some d => rw [h]

/-- Witness for C2 (amended) at concrete inputs: a load with an empty
provider registry still returns; `c1Before`'s load returns; a nil
provider yields the provider-not-exist error; and the reload panic. -/
theorem claim_C2_witness :
    (FullConfigLoader.Load env2 emptyLoader "x" []).isSome = true ∧
    (c1Before.Load).isSome = true ∧
    (FrameworkConfig.mk none none "w2" none []).Load =
      some (some errProviderNotExist, FrameworkConfig.mk none none "w2" none []) ∧
    FullConfigLoader.Reload env2 emptyLoader "x" [] = none :=
  ⟨claim_C2.1 env2 emptyLoader "x" [],
   claim_C2.2.1 c1Before rfl,
   claim_C2.2.2.1 (FrameworkConfig.mk none none "w2" none []) rfl,
   claim_C2.2.2.2 env2 emptyLoader "x" [] (Or.inr rfl)⟩

/-- An instance whose provider read fails. -/
def c3ReadFail : FrameworkConfig :=
  { p := some provRF, unmarshedData := some (.vMapS []), path := "q"
    decoder := some codecTree, rawData := [9] }

/-- An instance whose provider read succeeds and whose decoder fails. -/
def c3ParseFail : FrameworkConfig :=
  { p := some provOK2, unmarshedData := some (.vMapS []), path := "q"
    decoder := some codecBoom, rawData := [9] }

/-- An instance whose provider read and decode both succeed. -/
def c3OK : FrameworkConfig :=
  { p := some provOK2, unmarshedData := some (.vMapS []), path := "q"
    decoder := some codecTree, rawData := [9] }

/-- C3: instance `Reload` returns nothing; a provider-read failure or an
unmarshal failure leaves the stored raw bytes and tree unchanged (the
failure only goes to the diagnostic print), and success replaces both
together. -/
theorem claim_C3 (c : FrameworkConfig) (p : DataProvider) (hp : c.p = some p) :
    (∀ e, p.read c.path = .error e → c.Reload = some c) ∧
    (∀ data d e, p.read c.path = .ok data → c.decoder = some d →
      d.unmarshal data = .error e → c.Reload = some c) ∧
    (∀ data d tree, p.read c.path = .ok data → c.decoder = some d →
      d.unmarshal data = .ok tree →
      c.Reload = some { c with rawData := data, unmarshedData := some tree }) := by
  refine ⟨?_, ?_, ?_⟩
  · intro e hr
    simp only [FrameworkConfig.Reload, hp, hr]
  · intro data d e hr hd hu
    simp only [FrameworkConfig.Reload, hp, hr, hd, hu]
  · intro data d tree hr hd hu
    simp only [FrameworkConfig.Reload, hp, hr, hd, hu]

/-- Witness for C3 at three concrete instances: read failure, parse
failure, and success. -/
theorem claim_C3_witness :
    c3ReadFail.Reload = some c3ReadFail ∧
    c3ParseFail.Reload = some c3ParseFail ∧
    c3OK.Reload = some { c3OK with rawData := [2], unmarshedData := some (.vMapS [("a", .vInt 1)]) } :=
  ⟨(claim_C3 c3ReadFail provRF rfl).1 "io" rfl,
   (claim_C3 c3ParseFail provOK2 rfl).2.1 [2] codecBoom "boom" rfl rfl rfl,
   (claim_C3 c3OK provOK2 rfl).2.2 [2] codecTree (.vMapS [("a", .vInt 1)]) rfl rfl rfl⟩

/-- An environment whose `"file"` provider delivers `[7]` and whose YAML
decode always fails. -/
def env4 : Env :=
  { providers := [("file", provOK7)], yamlUnmarshal := fun _ => .error "bad" }

/-- C4: when the instance-level load fails on a cache miss, the top-level
`Load` returns that wrapped error and the cache map is returned
untouched — no entry is inserted or removed for the computed key. -/
theorem claim_C4 (env : Env) (loader : FullConfigLoader) (path : String)
    (opts : List LoadOption) (d : Codec) (p : DataProvider) (e : String)
    (c2 : FrameworkConfig)
    (hd : (applyOpts opts (newFullConfig env path)).decoder = some d)
    (hp : (applyOpts opts (newFullConfig env path)).p = some p)
    (hmiss : loader.lookupCfg (cacheKey d.name p.name path) = none)
    (hfail : (applyOpts opts (newFullConfig env path)).Load = some (some e, c2)) :
    FullConfigLoader.Load env loader path opts = some (.error e, loader) := by
  simp only [FullConfigLoader.Load, hd, hp, hmiss, hfail]

/-- Witness for C4 at a concrete failing decode: the error is propagated
and the loader is unchanged. -/
theorem claim_C4_witness :
    FullConfigLoader.Load env4 emptyLoader "x" [] =
      some (.error ("app/config: failed to parse " ++ "x" ++ ": " ++ "bad"),
        emptyLoader) :=
  claim_C4 env4 emptyLoader "x" []
    { name := "yaml", unmarshal := env4.yamlUnmarshal } provOK7
    ("app/config: failed to parse " ++ "x" ++ ": " ++ "bad")
    { applyOpts [] (newFullConfig env4 "x") with rawData := [7], unmarshedData := some (.vMapS []) }
    rfl rfl rfl rfl

/-- An environment whose `"file"` provider fails every read. -/
def env5 : Env :=
  { providers := [("file", provRF)], yamlUnmarshal := fun _ => .ok (.vMapS []) }

/-- A loader whose cache holds `c3ReadFail` under the key the default
options compute for path `"x"`. -/
def loader5 : FullConfigLoader :=
  { configMap := [(cacheKey "yaml" "file" "x", c3ReadFail)] }

/-- C5: top-level `Reload` fails with `ErrConfigNotExist` when the cache
key is absent, and when it is present it invokes the cached instance's
in-place `Reload` and returns success regardless of that reload's
internal outcome. -/
theorem claim_C5 (env : Env) (loader : FullConfigLoader) (path : String)
    (opts : List LoadOption) (d : Codec) (p : DataProvider)
    (hd : (applyOpts opts (newFullConfig env path)).decoder = some d)
    (hp : (applyOpts opts (newFullConfig env path)).p = some p) :
    (loader.lookupCfg (cacheKey d.name p.name path) = none →
      FullConfigLoader.Reload env loader path opts =
        some (some errConfigNotExist, loader)) ∧
    (∀ cfg cfg2, loader.lookupCfg (cacheKey d.name p.name path) = some cfg →
      cfg.Reload = some cfg2 →
      FullConfigLoader.Reload env loader path opts =
        some (none, loader.updateCfg (cacheKey d.name p.name path) cfg2)) := by
  constructor
  · intro hmiss
    simp only [FullConfigLoader.Reload, hd, hp, hmiss]
  · intro cfg cfg2 hhit hre
    simp only [FullConfigLoader.Reload, hd, hp, hhit, hre]

/-- Witness for C5: a never-loaded path fails with `ErrConfigNotExist`,
and a cached path whose internal reload fails (read error) still yields
success (`nil`). -/
theorem claim_C5_witness :
    FullConfigLoader.Reload env5 emptyLoader "x" [] =
      some (some errConfigNotExist, emptyLoader) ∧
    FullConfigLoader.Reload env5 loader5 "x" [] =
      some (none, loader5.updateCfg (cacheKey "yaml" "file" "x") c3ReadFail) :=
  ⟨(claim_C5 env5 emptyLoader "x" []
      { name := "yaml", unmarshal := env5.yamlUnmarshal } provRF rfl rfl).1 rfl,
   (claim_C5 env5 loader5 "x" []
      { name := "yaml", unmarshal := env5.yamlUnmarshal } provRF rfl rfl).2
      c3ReadFail c3ReadFail rfl rfl⟩

/-- An environment whose `"file"` provider delivers `[7]` and whose YAML
decode yields `{"a": 1}`. -/
def env9 : Env :=
  { providers := [("file", provOK7)]
    yamlUnmarshal := fun _ => .ok (.vMapS [("a", .vInt 1)]) }

/-- The instance a first successful load through `env9` produces. -/
def w9c : FrameworkConfig :=
  { applyOpts [] (newFullConfig env9 "x") with rawData := [7], unmarshedData := some (.vMapS [("a", .vInt 1)]) }

/-- The loader state after that first successful load. -/
def w9l : FullConfigLoader :=
  FullConfigLoader.insertCfg emptyLoader (cacheKey "yaml" "file" "x") w9c

/-- C9: a successful top-level `Load` leaves its instance cached under
the key `decoderName ++ "." ++ providerName ++ "." ++ path`, and a
second `Load` resolving to the same decoder, provider and path (with no
intervening eviction) returns the very same instance and loader state. -/
theorem claim_C9 (env : Env) (loader loader1 : FullConfigLoader) (path : String)
    (opts : List LoadOption) (c1 : FrameworkConfig) (d : Codec) (p : DataProvider)
    (hd : (applyOpts opts (newFullConfig env path)).decoder = some d)
    (hp : (applyOpts opts (newFullConfig env path)).p = some p)
    (h1 : FullConfigLoader.Load env loader path opts = some (.ok c1, loader1)) :
    loader1.lookupCfg (d.name ++ "." ++ p.name ++ "." ++ path) = some c1 ∧
    FullConfigLoader.Load env loader1 path opts = some (.ok c1, loader1) := by
  have hkey : cacheKey d.name p.name path = d.name ++ "." ++ p.name ++ "." ++ path :=
    rfl
  rw [← hkey]
  cases hl : loader.lookupCfg (cacheKey d.name p.name path) with
  | some c =>
    have hload : FullConfigLoader.Load env loader path opts =
        some (.ok c, loader) := by
      simp only [FullConfigLoader.Load, hd, hp, hl]
    rw [hload] at h1
    have h2 := Option.some.inj h1
    have hc : c = c1 := Except.ok.inj (congrArg Prod.fst h2)
    have hldr : loader = loader1 := congrArg Prod.snd h2
    subst hc
    subst hldr
    exact ⟨hl, hload⟩
  | none =>
    cases hL : (applyOpts opts (newFullConfig env path)).Load with
    | none =>
      have hsome := instLoad_isSome (applyOpts opts (newFullConfig env path))
        (by rw [hd]; rfl)
      rw [hL] at hsome
      cases hsome
    | some r =>
      obtain ⟨oe, yc2⟩ := r
      cases oe with
      | some e =>
        have hload : FullConfigLoader.Load env loader path opts =
            some (.error e, loader) := by
          simp only [FullConfigLoader.Load, hd, hp, hl, hL]
        rw [hload] at h1
        have h2 := Option.some.inj h1
        have := congrArg Prod.fst h2
        simp at this
      | none =>
        have hload : FullConfigLoader.Load env loader path opts =
            some (.ok yc2, loader.insertCfg (cacheKey d.name p.name path) yc2) := by
          simp only [FullConfigLoader.Load, hd, hp, hl, hL]
        rw [hload] at h1
        have h2 := Option.some.inj h1
        have hc : yc2 = c1 := Except.ok.inj (congrArg Prod.fst h2)
        have hldr : loader.insertCfg (cacheKey d.name p.name path) yc2 = loader1 :=
          congrArg Prod.snd h2
        subst hc
        subst hldr
        have hhit : (loader.insertCfg (cacheKey d.name p.name path) yc2).lookupCfg
            (cacheKey d.name p.name path) = some yc2 := by
          simp [FullConfigLoader.lookupCfg, FullConfigLoader.insertCfg, List.find?]
        refine ⟨hhit, ?_⟩
        simp only [FullConfigLoader.Load, hd, hp, hhit]

/-- Witness for C9: a concrete first load caches `w9c` under
`"yaml.file.x"` and an immediate second load returns the same instance
and state. -/
theorem claim_C9_witness :
    FullConfigLoader.Load env9 emptyLoader "x" [] = some (.ok w9c, w9l) ∧
    w9l.lookupCfg ("yaml" ++ "." ++ "file" ++ "." ++ "x") = some w9c ∧
    FullConfigLoader.Load env9 w9l "x" [] = some (.ok w9c, w9l) := by
  have h1 : FullConfigLoader.Load env9 emptyLoader "x" [] = some (.ok w9c, w9l) :=
    rfl
  have h2 := claim_C9 env9 emptyLoader w9l "x" [] w9c
    { name := "yaml", unmarshal := env9.yamlUnmarshal } provOK7 rfl rfl h1
  exact ⟨h1, h2.1, h2.2⟩

end GoConfig
